import Mathlib

/-!
Shallow embedding of the accessory reconciliation subsystem of
`src/platform.ts` (class HomebridgeMagichomeDynamicPlatform).

The embedding follows the source line by line:
* `isAllowed`            — lines 296-314 (allow-list policy, fail-open on error);
* `scanRetryAux`         — lines 78-84 (rescan-while-empty loop, bound 5);
* `processDevice`        — lines 96-223 (per-device body of the discovery loop);
* `reconcileLoop`        — lines 94-229 (the for-loop inside try/catch: an error
                           is caught once at the loop boundary and stops the loop);
* `configureAccessory`   — lines 44-57 (restore from cache, restartsSinceSeen++);
* `sweepDecision`        — lines 236-282 (pruning sweep over the accessory list);
* `discoverDevices`      — lines 68-290 (scan, reconcile, sweep).

External collaborators (hap uuid generation, Discover.createAccessory,
Transport.getState) are parameters of an `Env` record; the registry calls
(registerPlatformAccessories, updatePlatformAccessories,
unregisterPlatformAccessories) and the ip-discrepancy warnings are recorded as
effect lists in the run state.  Fields of devices and accessories that the
source only prints to the log (modelNumber, lightVersion, lightVersionModifier)
are not modelled.  Reads of an absent configuration object (JS TypeError on
property access of undefined) are modelled with Except errors where the source
has no surrounding try/catch, and with the fail-open default where it does.
-/

namespace MagicHome

/-- Substring test on lists of characters, mirroring JS String.prototype.includes. -/
def containsSub (sub : List Char) : List Char → Bool
  | [] => decide (sub = [])
  | c :: t => sub.isPrefixOf (c :: t) || containsSub sub t

/-- JS s.includes(sub) for strings. -/
def strContains (s sub : String) : Bool :=
  containsSub sub.data s.data

/-- JS s.toLowerCase(): lower-case every character (written over the character
list so that it evaluates inside the kernel). -/
def strToLower (s : String) : String :=
  String.mk (s.data.map Char.toLower)

/-- A device descriptor produced by one discovery scan (spec section 3).
initialState is written by the new-device branch (line 123). -/
structure Device where
  uniqueId : String
  ipAddress : String
  initialState : Option String
  deriving Repr, DecidableEq

/-- The accessory.context record used by the platform (displayName, device,
cachedIPAddress, restartsSinceSeen). -/
structure AccessoryContext where
  displayName : String
  device : Device
  cachedIPAddress : String
  restartsSinceSeen : Nat
  deriving Repr, DecidableEq

/-- A platform accessory: stable uuid plus the mutable context. -/
structure Accessory where
  uuid : String
  context : AccessoryContext
  deriving Repr, DecidableEq

/-- config.deviceManagement (both fields may be undefined, lines 301-302). -/
structure DeviceManagement where
  blacklistedUniqueIDs : Option (List String)
  blacklistOrWhitelist : Option String
  deriving Repr, DecidableEq

/-- config.pruning (lines 245-246). -/
structure Pruning where
  pruneMissingCachedAccessories : Bool
  pruneAllAccessoriesNextRestart : Bool
  restartsBeforeMissingAccessoriesPruned : Nat
  deriving Repr, DecidableEq

/-- The platform configuration surface read by the reconciliation code.
An absent object is `none` (property access on it throws in JS). -/
structure Config where
  deviceManagement : Option DeviceManagement
  pruning : Option Pruning
  deriving Repr, DecidableEq

/-- External collaborators: hap uuid generation (line 101),
Discover.createAccessory returning the convenient display name (line 115),
and Transport.getState returning the debug buffer (line 122); the last two
may fail (a thrown error is an `Except.error`). -/
structure Env where
  uuidGen : String → String
  createAccessory : Device → Except String String
  getState : Device → Except String String

/-- isAllowed, lines 296-314.  The try/catch around the body makes every
failure path (absent deviceManagement object) fall back to the initial
`isAllowed = true`; an undefined field fails the explicit undefined checks. -/
def isAllowed (config : Config) (uniqueId : String) : Bool :=
  match config.deviceManagement with
  | none => true
  | some dm =>
    match dm.blacklistedUniqueIDs, dm.blacklistOrWhitelist with
    | some list, some mode =>
      if (list.contains uniqueId && strContains mode ("blacklist"))
          || (!(list.contains uniqueId)) && strContains mode ("whitelist") then
        false
      else
        true
    | _, _ => true

/-- Modelled from the claim C3 reference definition: an if-else chain where the
blacklist clause is (mode contains "blacklist" and the id is listed) and the
whitelist clause, consulted only when the blacklist clause did not fire, is
(mode contains "whitelist" and the id is not listed); absent configuration is
always allowed. -/
def referenceIsAllowed (config : Config) (uniqueId : String) : Bool :=
  match config.deviceManagement with
  | none => true
  | some dm =>
    match dm.blacklistedUniqueIDs, dm.blacklistOrWhitelist with
    | some list, some mode =>
      if strContains mode ("blacklist") && list.contains uniqueId then
        false
      else if strContains mode ("whitelist") && !(list.contains uniqueId) then
        false
      else
        true
    | _, _ => true

/-- context.restartsSinceSeen++ (line 51). -/
def bumpRestarts (a : Accessory) : Accessory :=
  { a with context := { a.context with restartsSinceSeen := a.context.restartsSinceSeen + 1 } }

/-- context.restartsSinceSeen = 0 (lines 152 and 184). -/
def zeroRestarts (a : Accessory) : Accessory :=
  { a with context := { a.context with restartsSinceSeen := 0 } }

/-- context.cachedIPAddress = ip (line 196). -/
def setCachedIP (ip : String) (a : Accessory) : Accessory :=
  { a with context := { a.context with cachedIPAddress := ip } }

/-- In-place mutation of the object returned by Array.prototype.find: replace
the first element satisfying p. -/
def replaceFirst (p : Accessory → Bool) (f : Accessory → Accessory) : List Accessory → List Accessory
  | [] => []
  | a :: t => if p a then f a :: t else a :: replaceFirst p f t

/-- The run state: the in-memory this.accessories array, the three counters of
discoverDevices, the registry effect lists in call order, the ip-discrepancy
warnings (displayName, old ip, new ip), and the error caught at line 226. -/
structure RunState where
  accessories : List Accessory
  registeredDevices : Nat
  newDevices : Nat
  unseenDevices : Nat
  registered : List Accessory
  updated : List Accessory
  unregistered : List Accessory
  driftWarnings : List (String × String × String)
  loopError : Option String
  deriving Repr, DecidableEq

/-- Fresh run state over a given accessory list (counters of lines 72-74). -/
def initState (accessories : List Accessory) : RunState :=
  { accessories := accessories
    registeredDevices := 0
    newDevices := 0
    unseenDevices := 0
    registered := []
    updated := []
    unregistered := []
    driftWarnings := []
    loopError := none }

/-- The in-place mutation applied to a matched cached accessory, lines 184-199:
restartsSinceSeen = 0, then cachedIPAddress overwritten when it differs from
the discovered address. -/
def matchedAcc (device : Device) (existing : Accessory) : Accessory :=
  let a1 := zeroRestarts existing
  if a1.context.cachedIPAddress = device.ipAddress then a1
  else setCachedIP device.ipAddress a1

/-- The matched-accessory branch, lines 179-222: mutate the found accessory
(counter reset, ip-discrepancy correction with a warning), then either
unregister it (blacklisted or not whitelisted, judged on the cached
context.device.uniqueId) or update it and count a registration. -/
def processExisting (config : Config) (st : RunState) (device : Device) (uuid : String)
    (existing : Accessory) : RunState :=
  let a2 := matchedAcc device existing
  let warns :=
    if existing.context.cachedIPAddress = device.ipAddress then st.driftWarnings
    else st.driftWarnings
      ++ [(existing.context.displayName, existing.context.cachedIPAddress, device.ipAddress)]
  let st2 := { st with
    accessories := replaceFirst (fun a => a.uuid == uuid) (fun _ => a2) st.accessories
    driftWarnings := warns }
  if !(isAllowed config existing.context.device.uniqueId) then
    { st2 with unregistered := st2.unregistered ++ [a2] }
  else
    { st2 with
      registeredDevices := st2.registeredDevices + 1
      updated := st2.updated ++ [a2] }

/-- The accessory built for a never-seen device, lines 135-152. -/
def newAcc (device : Device) (uuid name stateBuf : String) : Accessory :=
  { uuid := uuid
    context :=
      { displayName := name
        device := { device with initialState := some stateBuf }
        cachedIPAddress := device.ipAddress
        restartsSinceSeen := 0 } }

/-- The new-device branch after both queries succeeded, lines 126-172: skip a
disallowed device, otherwise register the new accessory and push it onto
this.accessories. -/
def registerNew (config : Config) (st : RunState) (device : Device)
    (uuid name stateBuf : String) : RunState :=
  if !(isAllowed config device.uniqueId) then st
  else
    let acc := newAcc device uuid name stateBuf
    { st with
      accessories := st.accessories ++ [acc]
      registeredDevices := st.registeredDevices + 1
      newDevices := st.newDevices + 1
      registered := st.registered ++ [acc] }

/-- One iteration of the discovery for-loop, lines 96-223.  The new-device
branch (line 113) queries createAccessory and getState (either may throw,
which propagates to the catch at line 226); the matched branch never throws. -/
def processDevice (env : Env) (config : Config) (st : RunState) (device : Device) :
    Except String RunState :=
  let uuid := env.uuidGen device.uniqueId
  match st.accessories.find? (fun a => a.uuid == uuid) with
  | none =>
    match env.createAccessory device with
    | .error e => .error e
    | .ok name =>
      match env.getState device with
      | .error e => .error e
      | .ok stateBuf => .ok (registerNew config st device uuid name stateBuf)
  | some existing => .ok (processExisting config st device uuid existing)

/-- The discovery for-loop inside try/catch, lines 94-229: a thrown error is
caught once at the loop boundary (logged, recorded here in loopError) and the
remaining devices of the same run are not processed. -/
def reconcileLoop (env : Env) (config : Config) : RunState → List Device → RunState
  | st, [] => st
  | st, d :: rest =>
    match processDevice env config st d with
    | .ok st2 => reconcileLoop env config st2 rest
    | .error e => { st with loopError := some e }

/-- The rescan loop of lines 78-84, written with the structural fuel
5 - scans: the while condition (devices.length === 0 AND scans < 5) holds
exactly when the fuel is positive.  scan n is the result of the (n+1)-th call
to discover.scan; the triple returned is (devices, scans, number of scan calls
performed). -/
def scanRetryAux (scan : Nat → List Device) :
    Nat → List Device → Nat → Nat → List Device × Nat × Nat
  | 0, devices, scans, calls => (devices, scans, calls)
  | k + 1, devices, scans, calls =>
    if devices.length = 0 then
      scanRetryAux scan k (scan (scans + 1)) (scans + 1) (calls + 1)
    else
      (devices, scans, calls)

/-- Lines 78-84: the initial scan followed by the rescan-while-empty loop. -/
def scanPhase (scan : Nat → List Device) : List Device × Nat × Nat :=
  scanRetryAux scan 5 (scan 0) 0 1

/-- configureAccessory, lines 44-57: increment restartsSinceSeen and push the
restored accessory onto this.accessories. -/
def configureAccessory (accessories : List Accessory) (accessory : Accessory) : List Accessory :=
  accessories ++ [bumpRestarts accessory]

/-- Restore every persisted accessory at startup through configureAccessory. -/
def restoreCache (persisted : List Accessory) : List Accessory :=
  persisted.foldl configureAccessory []

/-- The outcome of the pruning sweep body for one accessory, lines 236-281. -/
inductive SweepDecision where
  | pruneDelete
  | pruneMissing
  | pruneDisallowed
  | keepUpdate
  | keepQuiet
  deriving Repr, DecidableEq

/-- Lines 254-280: the code reached when neither prune-branch fired (there is
no continue on the fall-through paths above it). -/
def sweepTail (config : Config) (acc : Accessory) : SweepDecision :=
  if 0 < acc.context.restartsSinceSeen then
    if !(isAllowed config acc.context.device.uniqueId) then .pruneDisallowed
    else .keepUpdate
  else .keepQuiet

/-- Lines 236-281 for one accessory.  The delete test (line 237) runs first and
never reads config.pruning; otherwise the retention branch reads
config.pruning, whose absence raises a TypeError that nothing catches. -/
def sweepDecision (config : Config) (acc : Accessory) : Except String SweepDecision :=
  if strContains (strToLower acc.context.displayName) ("delete") then
    .ok .pruneDelete
  else
    match config.pruning with
    | none => .error ("TypeError: cannot read pruning of undefined")
    | some pr =>
      if pr.pruneMissingCachedAccessories || pr.pruneAllAccessoriesNextRestart then
        if decide (pr.restartsBeforeMissingAccessoriesPruned ≤ acc.context.restartsSinceSeen)
            || pr.pruneAllAccessoriesNextRestart then
          .ok .pruneMissing
        else
          .ok (sweepTail config acc)
      else
        .ok (sweepTail config acc)

/-- Registry effects and counters of each sweep branch (unregister for the
three prune outcomes; update plus counters for the unseen-warning branch). -/
def applySweepDecision (st : RunState) (acc : Accessory) : SweepDecision → RunState
  | .pruneDelete => { st with unregistered := st.unregistered ++ [acc] }
  | .pruneMissing => { st with unregistered := st.unregistered ++ [acc] }
  | .pruneDisallowed => { st with unregistered := st.unregistered ++ [acc] }
  | .keepUpdate => { st with
      updated := st.updated ++ [acc]
      registeredDevices := st.registeredDevices + 1
      unseenDevices := st.unseenDevices + 1 }
  | .keepQuiet => st

/-- The pruning sweep for-loop, lines 236-282; it never mutates
this.accessories, and a TypeError from an absent pruning object propagates
out of discoverDevices (there is no try/catch around the sweep). -/
def sweepList (config : Config) : RunState → List Accessory → Except String RunState
  | st, [] => .ok st
  | st, a :: rest =>
    match sweepDecision config a with
    | .error e => .error e
    | .ok dec => sweepList config (applySweepDecision st a dec) rest

/-- discoverDevices, lines 68-290: scan phase, reconciliation loop (with its
own catch), then the pruning sweep over the full accessory list. -/
def discoverDevices (env : Env) (config : Config) (scan : Nat → List Device)
    (accessories : List Accessory) : Except String RunState :=
  let devices := (scanPhase scan).1
  let st := reconcileLoop env config (initState accessories) devices
  sweepList config st st.accessories

/-- A whole restart: every persisted accessory is restored through
configureAccessory before discoverDevices runs. -/
def runPlatform (env : Env) (config : Config) (scan : Nat → List Device)
    (persisted : List Accessory) : Except String RunState :=
  discoverDevices env config scan (restoreCache persisted)

/-- The uuid column of an accessory list. -/
def uuids (l : List Accessory) : List String :=
  l.map (fun a => a.uuid)

/-- No two accessories of the list share a uuid (the invariant Homebridge
enforces on the restored cache: duplicate-uuid registration is an error). -/
def UuidsDistinct (l : List Accessory) : Prop :=
  (uuids l).Nodup

/-- The cache is converged to the discovered set: every discovered device finds
a cached accessory under its uuid and that accessory already carries the
discovered ip address. -/
def Converged (env : Env) (l : List Accessory) (ds : List Device) : Prop :=
  ∀ d ∈ ds, ∃ a, l.find? (fun x => x.uuid == env.uuidGen d.uniqueId) = some a ∧
    a.context.cachedIPAddress = d.ipAddress

/- Concrete instances used by witnesses and counterexamples. -/

/-- An environment whose collaborators always succeed. -/
def envTotal : Env :=
  { uuidGen := fun s => s
    createAccessory := fun d => .ok (d.uniqueId)
    getState := fun _ => .ok ("state-buffer") }

/-- An environment whose state query fails for the device with uniqueId A. -/
def envAbort : Env :=
  { uuidGen := fun s => s
    createAccessory := fun d => .ok (d.uniqueId)
    getState := fun d => if d.uniqueId = ("A") then .error ("ETIMEDOUT") else .ok ("ok") }

/-- Discovered device A. -/
def deviceA : Device :=
  { uniqueId := ("A"), ipAddress := ("10.0.0.1"), initialState := none }

/-- Discovered device B. -/
def deviceB : Device :=
  { uniqueId := ("B"), ipAddress := ("10.0.0.2"), initialState := none }

/-- A retention configuration with both prune flags off and threshold 3. -/
def pruningOff : Pruning :=
  { pruneMissingCachedAccessories := false
    pruneAllAccessoriesNextRestart := false
    restartsBeforeMissingAccessoriesPruned := 3 }

/-- No allow-list configuration, pruning flags off. -/
def configPlain : Config :=
  { deviceManagement := none, pruning := some pruningOff }

/-- Neither configuration object present (config.pruning is undefined). -/
def configEmpty : Config :=
  { deviceManagement := none, pruning := none }

/-- Blacklist-mode configuration listing uniqueId B, pruning flags off. -/
def configBlacklistB : Config :=
  { deviceManagement := some
      { blacklistedUniqueIDs := some [("B")], blacklistOrWhitelist := some ("blacklist") }
    pruning := some pruningOff }

/-- A cached accessory for device B, already seen this run (counter 0). -/
def accPlainB : Accessory :=
  { uuid := ("B")
    context :=
      { displayName := ("Living Room")
        device := deviceB
        cachedIPAddress := ("10.0.0.2")
        restartsSinceSeen := 0 } }

/-- A cached accessory for device B, unseen for one restart. -/
def accUnseenB : Accessory :=
  { uuid := ("B")
    context :=
      { displayName := ("Living Room")
        device := deviceB
        cachedIPAddress := ("10.0.0.2")
        restartsSinceSeen := 1 } }

/-- A cached accessory for device B marked for deletion in its display name. -/
def accDeleteB : Accessory :=
  { uuid := ("B")
    context :=
      { displayName := ("DELETE me")
        device := deviceB
        cachedIPAddress := ("10.0.0.9")
        restartsSinceSeen := 4 } }

/- Helper lemmas on the context mutators. -/

@[simp] theorem zeroRestarts_uuid (a : Accessory) : (zeroRestarts a).uuid = a.uuid := rfl

@[simp] theorem zeroRestarts_rss (a : Accessory) :
    (zeroRestarts a).context.restartsSinceSeen = 0 := rfl

@[simp] theorem zeroRestarts_ip (a : Accessory) :
    (zeroRestarts a).context.cachedIPAddress = a.context.cachedIPAddress := rfl

@[simp] theorem zeroRestarts_name (a : Accessory) :
    (zeroRestarts a).context.displayName = a.context.displayName := rfl

@[simp] theorem zeroRestarts_device (a : Accessory) :
    (zeroRestarts a).context.device = a.context.device := rfl

@[simp] theorem setCachedIP_uuid (ip : String) (a : Accessory) :
    (setCachedIP ip a).uuid = a.uuid := rfl

@[simp] theorem setCachedIP_rss (ip : String) (a : Accessory) :
    (setCachedIP ip a).context.restartsSinceSeen = a.context.restartsSinceSeen := rfl

@[simp] theorem setCachedIP_ip (ip : String) (a : Accessory) :
    (setCachedIP ip a).context.cachedIPAddress = ip := rfl

@[simp] theorem setCachedIP_name (ip : String) (a : Accessory) :
    (setCachedIP ip a).context.displayName = a.context.displayName := rfl

@[simp] theorem setCachedIP_device (ip : String) (a : Accessory) :
    (setCachedIP ip a).context.device = a.context.device := rfl

@[simp] theorem bumpRestarts_uuid (a : Accessory) : (bumpRestarts a).uuid = a.uuid := rfl

@[simp] theorem bumpRestarts_rss (a : Accessory) :
    (bumpRestarts a).context.restartsSinceSeen = a.context.restartsSinceSeen + 1 := rfl

@[simp] theorem bumpRestarts_ip (a : Accessory) :
    (bumpRestarts a).context.cachedIPAddress = a.context.cachedIPAddress := rfl

@[simp] theorem bumpRestarts_name (a : Accessory) :
    (bumpRestarts a).context.displayName = a.context.displayName := rfl

@[simp] theorem bumpRestarts_device (a : Accessory) :
    (bumpRestarts a).context.device = a.context.device := rfl

theorem zeroRestarts_eq_self (a : Accessory) (h : a.context.restartsSinceSeen = 0) :
    zeroRestarts a = a := by
  cases a with
  | mk u ctx => cases ctx; simp_all [zeroRestarts]

/- Helper lemmas on find? and replaceFirst. -/

theorem replaceFirst_length (p : Accessory → Bool) (f : Accessory → Accessory) :
    ∀ l : List Accessory, (replaceFirst p f l).length = l.length
  | [] => rfl
  | a :: t => by
    cases hpa : p a <;> simp [replaceFirst, hpa, replaceFirst_length p f t]

theorem replaceFirst_of_forall_false (p : Accessory → Bool) (f : Accessory → Accessory) :
    ∀ l : List Accessory, (∀ x ∈ l, p x = false) → replaceFirst p f l = l
  | [], _ => rfl
  | a :: t, h => by
    have ha := h a (List.mem_cons_self a t)
    simp only [replaceFirst, ha, Bool.false_eq_true, if_false, List.cons.injEq, true_and]
    exact replaceFirst_of_forall_false p f t fun x hx => h x (List.mem_cons_of_mem a hx)

theorem find?_some_decomp (p : Accessory → Bool) (f : Accessory → Accessory) :
    ∀ (l : List Accessory) (a : Accessory), l.find? p = some a →
      ∃ l₁ l₂, l = l₁ ++ a :: l₂ ∧ (∀ x ∈ l₁, p x = false) ∧ p a = true ∧
        replaceFirst p f l = l₁ ++ f a :: l₂
  | [], a, h => by simp [List.find?] at h
  | b :: t, a, h => by
    cases hpb : p b with
    | true =>
      have hba : b = a := by simpa [List.find?, hpb] using h
      subst hba
      exact ⟨[], t, by simp, by simp, hpb, by simp [replaceFirst, hpb]⟩
    | false =>
      have h2 : t.find? p = some a := by simpa [List.find?, hpb] using h
      obtain ⟨l₁, l₂, hl, hfa, hpa, hrep⟩ := find?_some_decomp p f t a h2
      refine ⟨b :: l₁, l₂, by simp [hl], ?_, hpa, by simp [replaceFirst, hpb, hrep]⟩
      intro x hx
      rcases List.mem_cons.mp hx with hxb | hx2
      · exact hxb ▸ hpb
      · exact hfa x hx2

theorem find?_replaceFirst_self (p : Accessory → Bool) (f : Accessory → Accessory)
    (l : List Accessory) (a : Accessory) (hfind : l.find? p = some a)
    (hfa : p (f a) = true) :
    (replaceFirst p f l).find? p = some (f a) := by
  obtain ⟨l₁, l₂, hl, h1, hpa, hrep⟩ := find?_some_decomp p f l a hfind
  rw [hrep, List.find?_append]
  have hnone : l₁.find? p = none := List.find?_eq_none.mpr (by intro x hx; simp [h1 x hx])
  simp [hnone, List.find?, hfa]

theorem find?_replaceFirst_other (p q : Accessory → Bool) (f : Accessory → Accessory)
    (l : List Accessory) (a : Accessory) (hfind : l.find? p = some a)
    (hqa : q a = false) (hqfa : q (f a) = false) :
    (replaceFirst p f l).find? q = l.find? q := by
  obtain ⟨l₁, l₂, hl, h1, hpa, hrep⟩ := find?_some_decomp p f l a hfind
  have htail : (f a :: l₂).find? q = (a :: l₂).find? q := by
    simp [List.find?, hqa, hqfa]
  rw [hrep, hl, List.find?_append, List.find?_append, htail]

theorem replaceFirst_id_of_fix (p : Accessory → Bool) (f : Accessory → Accessory)
    (l : List Accessory) (a : Accessory) (hfind : l.find? p = some a) (hfa : f a = a) :
    replaceFirst p f l = l := by
  obtain ⟨l₁, l₂, hl, h1, hpa, hrep⟩ := find?_some_decomp p f l a hfind
  rw [hrep, hfa, ← hl]

theorem mem_replaceFirst (p : Accessory → Bool) (f : Accessory → Accessory)
    (l : List Accessory) (x : Accessory) (hx : x ∈ replaceFirst p f l) :
    x ∈ l ∨ ∃ a, l.find? p = some a ∧ x = f a := by
  cases hfind : l.find? p with
  | none =>
    rw [replaceFirst_of_forall_false p f l
      (by intro y hy; have := List.find?_eq_none.mp hfind y hy; simpa using this)] at hx
    exact Or.inl hx
  | some a =>
    obtain ⟨l₁, l₂, hl, h1, hpa, hrep⟩ := find?_some_decomp p f l a hfind
    rw [hrep] at hx
    rcases List.mem_append.mp hx with h | h
    · exact Or.inl (by rw [hl]; exact List.mem_append.mpr (Or.inl h))
    · rcases List.mem_cons.mp h with hfx | h2
      · exact Or.inr ⟨a, rfl, hfx⟩
      · exact Or.inl (by rw [hl]; exact List.mem_append.mpr (Or.inr (List.mem_cons_of_mem a h2)))

theorem replaced_mem (p : Accessory → Bool) (f : Accessory → Accessory)
    (l : List Accessory) (a : Accessory) (hfind : l.find? p = some a) :
    f a ∈ replaceFirst p f l := by
  obtain ⟨l₁, l₂, hl, h1, hpa, hrep⟩ := find?_some_decomp p f l a hfind
  rw [hrep]
  exact List.mem_append.mpr (Or.inr (List.mem_cons_self _ _))

theorem uuids_replaceFirst (p : Accessory → Bool) (f : Accessory → Accessory)
    (hf : ∀ a, p a = true → (f a).uuid = a.uuid) :
    ∀ l : List Accessory, uuids (replaceFirst p f l) = uuids l
  | [] => rfl
  | a :: t => by
    cases hpa : p a with
    | true =>
      simp only [replaceFirst, hpa, if_true, uuids, List.map_cons]
      rw [hf a hpa]
    | false =>
      simp only [replaceFirst, hpa, Bool.false_eq_true, if_false, uuids, List.map_cons,
        List.cons.injEq, true_and]
      exact uuids_replaceFirst p f hf t

theorem eq_of_mem_of_uuid_eq :
    ∀ l : List Accessory, UuidsDistinct l →
      ∀ a b : Accessory, a ∈ l → b ∈ l → a.uuid = b.uuid → a = b
  | [], _, a, b, ha, _, _ => absurd ha (List.not_mem_nil a)
  | c :: t, hdist, a, b, ha, hb, hu => by
    have hnd : c.uuid ∉ uuids t ∧ (uuids t).Nodup := by
      simpa [UuidsDistinct, uuids] using hdist
    rcases List.mem_cons.mp ha with rfl | ha2 <;> rcases List.mem_cons.mp hb with rfl | hb2
    · rfl
    · exact absurd (hu ▸ List.mem_map_of_mem (fun x => x.uuid) hb2) hnd.1
    · exact absurd (hu ▸ List.mem_map_of_mem (fun x => x.uuid) ha2) hnd.1
    · exact eq_of_mem_of_uuid_eq t (by simpa [UuidsDistinct, uuids] using hnd.2) a b ha2 hb2 hu

theorem restoreCache_eq_map (persisted : List Accessory) :
    restoreCache persisted = persisted.map bumpRestarts := by
  have h : ∀ (l acc : List Accessory),
      l.foldl configureAccessory acc = acc ++ l.map bumpRestarts := by
    intro l
    induction l with
    | nil => intro acc; simp
    | cons a t ih => intro acc; simp [configureAccessory, ih, List.append_assoc]
  simpa [restoreCache] using h persisted []

/- Projection lemmas for the per-device step. -/

@[simp] theorem matchedAcc_uuid (d : Device) (ex : Accessory) :
    (matchedAcc d ex).uuid = ex.uuid := by
  simp only [matchedAcc]; split <;> simp

@[simp] theorem matchedAcc_rss (d : Device) (ex : Accessory) :
    (matchedAcc d ex).context.restartsSinceSeen = 0 := by
  simp only [matchedAcc]; split <;> simp

@[simp] theorem matchedAcc_ip (d : Device) (ex : Accessory) :
    (matchedAcc d ex).context.cachedIPAddress = d.ipAddress := by
  simp only [matchedAcc]; split <;> simp_all

@[simp] theorem matchedAcc_name (d : Device) (ex : Accessory) :
    (matchedAcc d ex).context.displayName = ex.context.displayName := by
  simp only [matchedAcc]; split <;> simp

@[simp] theorem matchedAcc_device (d : Device) (ex : Accessory) :
    (matchedAcc d ex).context.device = ex.context.device := by
  simp only [matchedAcc]; split <;> simp

theorem matchedAcc_eq_self (d : Device) (ex : Accessory)
    (h0 : ex.context.restartsSinceSeen = 0)
    (hip : ex.context.cachedIPAddress = d.ipAddress) : matchedAcc d ex = ex := by
  simp only [matchedAcc]
  rw [zeroRestarts_eq_self ex h0]
  simp [hip]

@[simp] theorem newAcc_uuid (d : Device) (u n sb : String) : (newAcc d u n sb).uuid = u := rfl

@[simp] theorem newAcc_rss (d : Device) (u n sb : String) :
    (newAcc d u n sb).context.restartsSinceSeen = 0 := rfl

@[simp] theorem newAcc_ip (d : Device) (u n sb : String) :
    (newAcc d u n sb).context.cachedIPAddress = d.ipAddress := rfl

theorem processExisting_accessories (config : Config) (st : RunState) (d : Device)
    (u : String) (ex : Accessory) :
    (processExisting config st d u ex).accessories =
      replaceFirst (fun a => a.uuid == u) (fun _ => matchedAcc d ex) st.accessories := by
  simp only [processExisting]; split <;> rfl

theorem processExisting_registered (config : Config) (st : RunState) (d : Device)
    (u : String) (ex : Accessory) :
    (processExisting config st d u ex).registered = st.registered := by
  simp only [processExisting]; split <;> rfl

theorem processExisting_newDevices (config : Config) (st : RunState) (d : Device)
    (u : String) (ex : Accessory) :
    (processExisting config st d u ex).newDevices = st.newDevices := by
  simp only [processExisting]; split <;> rfl

theorem processExisting_loopError (config : Config) (st : RunState) (d : Device)
    (u : String) (ex : Accessory) :
    (processExisting config st d u ex).loopError = st.loopError := by
  simp only [processExisting]; split <;> rfl

theorem processExisting_driftWarnings (config : Config) (st : RunState) (d : Device)
    (u : String) (ex : Accessory) :
    (processExisting config st d u ex).driftWarnings =
      if ex.context.cachedIPAddress = d.ipAddress then st.driftWarnings
      else st.driftWarnings
        ++ [(ex.context.displayName, ex.context.cachedIPAddress, d.ipAddress)] := by
  simp only [processExisting]; split <;> rfl

theorem registerNew_accessories (config : Config) (st : RunState) (d : Device)
    (u n sb : String) :
    (registerNew config st d u n sb).accessories =
      if isAllowed config d.uniqueId then st.accessories ++ [newAcc d u n sb]
      else st.accessories := by
  simp only [registerNew]
  cases h : isAllowed config d.uniqueId <;> simp [h]

theorem registerNew_registered (config : Config) (st : RunState) (d : Device)
    (u n sb : String) :
    (registerNew config st d u n sb).registered =
      if isAllowed config d.uniqueId then st.registered ++ [newAcc d u n sb]
      else st.registered := by
  simp only [registerNew]
  cases h : isAllowed config d.uniqueId <;> simp [h]

theorem registerNew_loopError (config : Config) (st : RunState) (d : Device)
    (u n sb : String) :
    (registerNew config st d u n sb).loopError = st.loopError := by
  simp only [registerNew]; split <;> rfl

/- Step lemmas for processDevice. -/

theorem processDevice_ok (env : Env) (config : Config) (st : RunState) (d : Device)
    (hc : ∃ x, env.createAccessory d = .ok x) (hs : ∃ y, env.getState d = .ok y) :
    ∃ st2, processDevice env config st d = .ok st2 := by
  obtain ⟨x, hx⟩ := hc
  obtain ⟨y, hy⟩ := hs
  simp only [processDevice]
  cases hfind : st.accessories.find? (fun a => a.uuid == env.uuidGen d.uniqueId) with
  | none => rw [hx, hy]; exact ⟨_, rfl⟩
  | some ex => exact ⟨_, rfl⟩

theorem processDevice_mem (env : Env) (config : Config) (st : RunState) (d : Device)
    (st2 : RunState) (h : processDevice env config st d = .ok st2) :
    ∀ b ∈ st2.accessories,
      (∃ c ∈ st.accessories, c.uuid = b.uuid) ∨ env.uuidGen d.uniqueId = b.uuid := by
  intro b hb
  simp only [processDevice] at h
  cases hfind : st.accessories.find? (fun a => a.uuid == env.uuidGen d.uniqueId) with
  | some ex =>
    rw [hfind] at h
    cases h
    rw [processExisting_accessories] at hb
    rcases mem_replaceFirst _ _ _ _ hb with h2 | ⟨a, hfind2, hba⟩
    · exact Or.inl ⟨b, h2, rfl⟩
    · refine Or.inl ⟨ex, List.mem_of_find?_eq_some hfind, ?_⟩
      rw [hba, matchedAcc_uuid]
  | none =>
    rw [hfind] at h
    cases hc : env.createAccessory d with
    | error e => rw [hc] at h; cases h
    | ok name =>
      rw [hc] at h
      cases hs : env.getState d with
      | error e => rw [hs] at h; cases h
      | ok sb =>
        rw [hs] at h
        cases h
        rw [registerNew_accessories] at hb
        by_cases hall : isAllowed config d.uniqueId = true
        · rw [if_pos hall] at hb
          rcases List.mem_append.mp hb with h2 | h2
          · exact Or.inl ⟨b, h2, rfl⟩
          · rcases List.mem_singleton.mp h2 with rfl
            exact Or.inr rfl
        · rw [if_neg hall] at hb
          exact Or.inl ⟨b, hb, rfl⟩

theorem processDevice_distinct (env : Env) (config : Config) (st : RunState) (d : Device)
    (st2 : RunState) (h : processDevice env config st d = .ok st2)
    (hdist : UuidsDistinct st.accessories) : UuidsDistinct st2.accessories := by
  simp only [processDevice] at h
  cases hfind : st.accessories.find? (fun a => a.uuid == env.uuidGen d.uniqueId) with
  | some ex =>
    rw [hfind] at h
    cases h
    rw [UuidsDistinct, processExisting_accessories, uuids_replaceFirst]
    · exact hdist
    · intro a ha
      have hex : ex.uuid = env.uuidGen d.uniqueId := by
        have := List.find?_some hfind
        simpa using this
      have haa : a.uuid = env.uuidGen d.uniqueId := by simpa using ha
      rw [matchedAcc_uuid, hex, haa]
  | none =>
    rw [hfind] at h
    cases hc : env.createAccessory d with
    | error e => rw [hc] at h; cases h
    | ok name =>
      rw [hc] at h
      cases hs : env.getState d with
      | error e => rw [hs] at h; cases h
      | ok sb =>
        rw [hs] at h
        cases h
        rw [UuidsDistinct, registerNew_accessories]
        by_cases hall : isAllowed config d.uniqueId = true
        · rw [if_pos hall]
          have hnotin : env.uuidGen d.uniqueId ∉ uuids st.accessories := by
            intro hmem
            rw [uuids] at hmem
            rcases List.mem_map.mp hmem with ⟨a, ha, hau⟩
            have := List.find?_eq_none.mp hfind a ha
            simp [hau] at this
          simp only [uuids, List.map_append, List.map_cons, List.map_nil]
          rw [List.nodup_append]
          refine ⟨hdist, List.nodup_singleton _, ?_⟩
          intro x hx hx2
          rcases List.mem_singleton.mp hx2 with rfl
          exact hnotin (by simpa [uuids, newAcc_uuid] using hx)
        · rw [if_neg hall]; exact hdist

/- Loop lemmas for reconcileLoop. -/

theorem loop_provenance (env : Env) (config : Config) :
    ∀ (ds : List Device) (st : RunState) (b : Accessory),
      b ∈ (reconcileLoop env config st ds).accessories →
      (∃ c ∈ st.accessories, c.uuid = b.uuid) ∨ ∃ d ∈ ds, env.uuidGen d.uniqueId = b.uuid
  | [], _, b, hb => Or.inl ⟨b, hb, rfl⟩
  | d :: rest, st, b, hb => by
    rw [reconcileLoop] at hb
    cases hp : processDevice env config st d with
    | error e =>
      rw [hp] at hb
      exact Or.inl ⟨b, hb, rfl⟩
    | ok st2 =>
      rw [hp] at hb
      rcases loop_provenance env config rest st2 b hb with ⟨c, hc, hcu⟩ | ⟨d2, hd2, hdu⟩
      · rcases processDevice_mem env config st d st2 hp c hc with ⟨c2, hc2, hc2u⟩ | hu
        · exact Or.inl ⟨c2, hc2, hc2u.trans hcu⟩
        · exact Or.inr ⟨d, List.mem_cons_self d rest, hu.trans hcu⟩
      · exact Or.inr ⟨d2, List.mem_cons_of_mem d hd2, hdu⟩

/- Sweep lemmas. -/

theorem applySweepDecision_accessories (st : RunState) (acc : Accessory)
    (dec : SweepDecision) : (applySweepDecision st acc dec).accessories = st.accessories := by
  cases dec <;> rfl

theorem sweepDecision_ok_of_pruning (config : Config) (acc : Accessory) (pr : Pruning)
    (hpr : config.pruning = some pr) : ∃ dec, sweepDecision config acc = .ok dec := by
  simp only [sweepDecision, hpr]
  split
  · exact ⟨_, rfl⟩
  · split
    · split
      · exact ⟨_, rfl⟩
      · exact ⟨_, rfl⟩
    · exact ⟨_, rfl⟩

theorem sweepList_ok_of_pruning (config : Config) (pr : Pruning)
    (hpr : config.pruning = some pr) :
    ∀ (l : List Accessory) (st : RunState),
      ∃ st2, sweepList config st l = .ok st2 ∧ st2.accessories = st.accessories := by
  intro l
  induction l with
  | nil => intro st; exact ⟨st, rfl, rfl⟩
  | cons a rest ih =>
    intro st
    obtain ⟨dec, hdec⟩ := sweepDecision_ok_of_pruning config a pr hpr
    obtain ⟨st2, h2, hacc⟩ := ih (applySweepDecision st a dec)
    refine ⟨st2, ?_, ?_⟩
    · simp only [sweepList]; rw [hdec]; exact h2
    · rw [hacc, applySweepDecision_accessories]

theorem find?_uuid_eq_of_some {st : List Accessory} {u : String} {a : Accessory}
    (h : st.find? (fun x => x.uuid == u) = some a) : a.uuid = u := by
  have h2 := List.find?_some h
  simpa using h2

theorem matchedAcc_of_ip_eq (d : Device) (ex : Accessory)
    (hip : ex.context.cachedIPAddress = d.ipAddress) : matchedAcc d ex = zeroRestarts ex := by
  simp only [matchedAcc]
  simp [hip]

theorem processDevice_matched_eq (env : Env) (config : Config) (st : RunState) (d : Device)
    (ex : Accessory)
    (hfind : st.accessories.find? (fun x => x.uuid == env.uuidGen d.uniqueId) = some ex) :
    processDevice env config st d =
      .ok (processExisting config st d (env.uuidGen d.uniqueId) ex) := by
  simp only [processDevice]
  rw [hfind]

/-- One reconciliation pass over a converged state: no new registrations, and
every accessory reachable through find? keeps its uuid and address, keeps a
zero counter, and ends at zero when some processed device carries its uuid. -/
theorem loop_converged_run (env : Env) (config : Config) :
    ∀ (ds : List Device) (st : RunState),
      Converged env st.accessories ds →
      (reconcileLoop env config st ds).registered = st.registered ∧
      (reconcileLoop env config st ds).newDevices = st.newDevices ∧
      ∀ (u : String) (a : Accessory),
        st.accessories.find? (fun x => x.uuid == u) = some a →
        ∃ a2, (reconcileLoop env config st ds).accessories.find?
            (fun x => x.uuid == u) = some a2 ∧
          a2.uuid = a.uuid ∧
          a2.context.cachedIPAddress = a.context.cachedIPAddress ∧
          (a.context.restartsSinceSeen = 0 → a2.context.restartsSinceSeen = 0) ∧
          ((∃ d ∈ ds, env.uuidGen d.uniqueId = u) → a2.context.restartsSinceSeen = 0) := by
  intro ds
  induction ds with
  | nil =>
    intro st _
    refine ⟨rfl, rfl, ?_⟩
    intro u a hfind
    exact ⟨a, hfind, rfl, rfl, fun h => h, by rintro ⟨d, hd, -⟩; cases hd⟩
  | cons d rest ih =>
    intro st hconv
    obtain ⟨a0, hfind0, hip0⟩ := hconv d (List.mem_cons_self d rest)
    have ha0u : a0.uuid = env.uuidGen d.uniqueId := find?_uuid_eq_of_some hfind0
    have hstep := processDevice_matched_eq env config st d a0 hfind0
    have haccs := processExisting_accessories config st d (env.uuidGen d.uniqueId) a0
    have hmz : matchedAcc d a0 = zeroRestarts a0 := matchedAcc_of_ip_eq d a0 hip0
    have hloop : reconcileLoop env config st (d :: rest) =
        reconcileLoop env config
          (processExisting config st d (env.uuidGen d.uniqueId) a0) rest := by
      rw [reconcileLoop, hstep]
    -- find? facts on the stepped state
    have hfself : (processExisting config st d (env.uuidGen d.uniqueId) a0).accessories.find?
        (fun x => x.uuid == env.uuidGen d.uniqueId) = some (zeroRestarts a0) := by
      rw [haccs, hmz]
      apply find?_replaceFirst_self _ _ _ _ hfind0
      simp [ha0u]
    have hfother : ∀ u, u ≠ env.uuidGen d.uniqueId →
        (processExisting config st d (env.uuidGen d.uniqueId) a0).accessories.find?
          (fun x => x.uuid == u) = st.accessories.find? (fun x => x.uuid == u) := by
      intro u hu
      rw [haccs, hmz]
      apply find?_replaceFirst_other _ _ _ _ _ hfind0 <;>
        · simp [ha0u]
          exact fun h => hu h.symm
    -- convergence carries to the stepped state
    have hconv2 : Converged env
        (processExisting config st d (env.uuidGen d.uniqueId) a0).accessories rest := by
      intro d2 hd2
      obtain ⟨a3, hfind3, hip3⟩ := hconv d2 (List.mem_cons_of_mem d hd2)
      by_cases he : env.uuidGen d2.uniqueId = env.uuidGen d.uniqueId
      · rw [he] at hfind3 ⊢
        rw [hfind0] at hfind3
        cases hfind3
        exact ⟨zeroRestarts a0, hfself, by simpa using hip3⟩
      · rw [hfother _ he]
        exact ⟨a3, hfind3, hip3⟩
    obtain ⟨ihreg, ihnew, ihfind⟩ := ih (processExisting config st d (env.uuidGen d.uniqueId) a0) hconv2
    refine ⟨?_, ?_, ?_⟩
    · rw [hloop, ihreg, processExisting_registered]
    · rw [hloop, ihnew, processExisting_newDevices]
    · intro u a hfind
      by_cases he : u = env.uuidGen d.uniqueId
      · subst he
        rw [hfind0] at hfind
        cases hfind
        obtain ⟨a2, hf2, hu2, hip2, hz2, -⟩ := ihfind _ (zeroRestarts a0) hfself
        rw [hloop]
        exact ⟨a2, hf2, by simpa using hu2, by simpa using hip2,
          fun _ => hz2 rfl, fun _ => hz2 rfl⟩
      · have hfind2 : (processExisting config st d (env.uuidGen d.uniqueId) a0).accessories.find?
            (fun x => x.uuid == u) = some a := by rw [hfother _ he]; exact hfind
        obtain ⟨a2, hf2, hu2, hip2, hz2, hd2⟩ := ihfind u a hfind2
        rw [hloop]
        refine ⟨a2, hf2, hu2, hip2, hz2, ?_⟩
        rintro ⟨d3, hd3, hkey3⟩
        rcases List.mem_cons.mp hd3 with rfl | hd3
        · exact absurd hkey3 (fun h => he h.symm)
        · exact hd2 ⟨d3, hd3, hkey3⟩

/-- A reconciliation pass over a state where every processed device already
finds its accessory with the right address and a zero counter changes
nothing: the accessory list and the registration effects are untouched. -/
theorem loop_zero_fixed (env : Env) (config : Config) :
    ∀ (ds : List Device) (st : RunState),
      (∀ d ∈ ds, ∃ a, st.accessories.find?
          (fun x => x.uuid == env.uuidGen d.uniqueId) = some a ∧
        a.context.cachedIPAddress = d.ipAddress ∧ a.context.restartsSinceSeen = 0) →
      (reconcileLoop env config st ds).accessories = st.accessories ∧
      (reconcileLoop env config st ds).registered = st.registered ∧
      (reconcileLoop env config st ds).newDevices = st.newDevices := by
  intro ds
  induction ds with
  | nil => exact fun st _ => ⟨rfl, rfl, rfl⟩
  | cons d rest ih =>
    intro st hfix
    obtain ⟨a0, hfind0, hip0, h00⟩ := hfix d (List.mem_cons_self d rest)
    have hstep := processDevice_matched_eq env config st d a0 hfind0
    have hmz : matchedAcc d a0 = a0 := by
      rw [matchedAcc_of_ip_eq d a0 hip0, zeroRestarts_eq_self a0 h00]
    have haccs : (processExisting config st d (env.uuidGen d.uniqueId) a0).accessories =
        st.accessories := by
      rw [processExisting_accessories]
      exact replaceFirst_id_of_fix _ _ _ _ hfind0 hmz
    have hloop : reconcileLoop env config st (d :: rest) =
        reconcileLoop env config
          (processExisting config st d (env.uuidGen d.uniqueId) a0) rest := by
      rw [reconcileLoop, hstep]
    obtain ⟨iha, ihr, ihn⟩ := ih (processExisting config st d (env.uuidGen d.uniqueId) a0)
      (by rw [haccs]; exact fun d2 hd2 => hfix d2 (List.mem_cons_of_mem d hd2))
    refine ⟨?_, ?_, ?_⟩
    · rw [hloop, iha, haccs]
    · rw [hloop, ihr, processExisting_registered]
    · rw [hloop, ihn, processExisting_newDevices]

/-- After a failure-free reconciliation pass, an accessory carries a zero
counter exactly when some processed device carries its uuid or it already
carried zero before the pass; uuid distinctness is preserved. -/
theorem loop_rss_iff (env : Env) (config : Config)
    (hek : ∀ d, ∃ x, env.createAccessory d = .ok x)
    (hes : ∀ d, ∃ y, env.getState d = .ok y) :
    ∀ (ds : List Device) (st : RunState),
      UuidsDistinct st.accessories →
      UuidsDistinct (reconcileLoop env config st ds).accessories ∧
      ∀ a ∈ (reconcileLoop env config st ds).accessories,
        (a.context.restartsSinceSeen = 0 ↔
          (∃ d ∈ ds, env.uuidGen d.uniqueId = a.uuid) ∨
          ∃ b ∈ st.accessories, b.uuid = a.uuid ∧ b.context.restartsSinceSeen = 0) := by
  intro ds
  induction ds with
  | nil =>
    intro st hdist
    refine ⟨hdist, ?_⟩
    intro a ha
    constructor
    · intro h
      exact Or.inr ⟨a, ha, rfl, h⟩
    · rintro (⟨d, hd, -⟩ | ⟨b, hb, hu, h0⟩)
      · exact absurd hd (List.not_mem_nil d)
      · exact eq_of_mem_of_uuid_eq _ hdist b a hb ha hu ▸ h0
  | cons d rest ihd =>
    intro st hdist
    cases hfind : st.accessories.find? (fun x => x.uuid == env.uuidGen d.uniqueId) with
    | some ex =>
      have hstep := processDevice_matched_eq env config st d ex hfind
      have hloop : reconcileLoop env config st (d :: rest) =
          reconcileLoop env config
            (processExisting config st d (env.uuidGen d.uniqueId) ex) rest := by
        rw [reconcileLoop, hstep]
      have hdist2 := processDevice_distinct env config st d _ hstep hdist
      obtain ⟨ihdist, ihiff⟩ :=
        ihd (processExisting config st d (env.uuidGen d.uniqueId) ex) hdist2
      have hexu : ex.uuid = env.uuidGen d.uniqueId := find?_uuid_eq_of_some hfind
      have hset : ∀ v,
          ((∃ b ∈ (processExisting config st d (env.uuidGen d.uniqueId) ex).accessories,
              b.uuid = v ∧ b.context.restartsSinceSeen = 0) ↔
            (env.uuidGen d.uniqueId = v ∨
              ∃ b ∈ st.accessories, b.uuid = v ∧ b.context.restartsSinceSeen = 0)) := by
        intro v
        rw [processExisting_accessories]
        constructor
        · rintro ⟨b, hb, hbv, hb0⟩
          rcases mem_replaceFirst _ _ _ _ hb with hbmem | ⟨c, hfc, hbc⟩
          · exact Or.inr ⟨b, hbmem, hbv, hb0⟩
          · rw [hfind] at hfc
            cases hfc
            left
            rw [← hbv, hbc, matchedAcc_uuid, hexu]
        · rintro (hv | ⟨b, hb, hbv, hb0⟩)
          · exact ⟨matchedAcc d ex, replaced_mem _ _ _ _ hfind,
              by rw [matchedAcc_uuid, hexu, hv], matchedAcc_rss d ex⟩
          · obtain ⟨l₁, l₂, hl, h1, hpa, hrep⟩ :=
              find?_some_decomp (fun x => x.uuid == env.uuidGen d.uniqueId)
                (fun _ => matchedAcc d ex) st.accessories ex hfind
            rw [hrep]
            rw [hl] at hb
            rcases List.mem_append.mp hb with hbl | hbr
            · exact ⟨b, List.mem_append.mpr (Or.inl hbl), hbv, hb0⟩
            · rcases List.mem_cons.mp hbr with rfl | hbl2
              · exact ⟨matchedAcc d b,
                  List.mem_append.mpr (Or.inr (List.mem_cons_self _ _)),
                  by rw [matchedAcc_uuid]; exact hbv, matchedAcc_rss d b⟩
              · exact ⟨b, List.mem_append.mpr (Or.inr (List.mem_cons_of_mem _ hbl2)),
                  hbv, hb0⟩
      refine ⟨by rw [hloop]; exact ihdist, ?_⟩
      intro a ha
      rw [hloop] at ha
      have hiff := ihiff a ha
      rw [hset a.uuid] at hiff
      rw [hiff]
      constructor
      · rintro (⟨d2, hd2, hk⟩ | (hv | hb))
        · exact Or.inl ⟨d2, List.mem_cons_of_mem d hd2, hk⟩
        · exact Or.inl ⟨d, List.mem_cons_self d rest, hv⟩
        · exact Or.inr hb
      · rintro (⟨d2, hd2, hk⟩ | hb)
        · rcases List.mem_cons.mp hd2 with rfl | hd2
          · exact Or.inr (Or.inl hk)
          · exact Or.inl ⟨d2, hd2, hk⟩
        · exact Or.inr (Or.inr hb)
    | none =>
      obtain ⟨x, hx⟩ := hek d
      obtain ⟨y, hy⟩ := hes d
      have hstep : processDevice env config st d =
          .ok (registerNew config st d (env.uuidGen d.uniqueId) x y) := by
        simp only [processDevice]
        rw [hfind, hx, hy]
      have hloop : reconcileLoop env config st (d :: rest) =
          reconcileLoop env config
            (registerNew config st d (env.uuidGen d.uniqueId) x y) rest := by
        rw [reconcileLoop, hstep]
      have hdist2 := processDevice_distinct env config st d _ hstep hdist
      obtain ⟨ihdist, ihiff⟩ :=
        ihd (registerNew config st d (env.uuidGen d.uniqueId) x y) hdist2
      have hnotin : ∀ c ∈ st.accessories, c.uuid ≠ env.uuidGen d.uniqueId := by
        intro c hc
        have h2 := List.find?_eq_none.mp hfind c hc
        simpa using h2
      refine ⟨by rw [hloop]; exact ihdist, ?_⟩
      intro a ha
      rw [hloop] at ha
      have hiff := ihiff a ha
      by_cases hall : isAllowed config d.uniqueId = true
      · have haccs : (registerNew config st d (env.uuidGen d.uniqueId) x y).accessories =
            st.accessories ++ [newAcc d (env.uuidGen d.uniqueId) x y] := by
          rw [registerNew_accessories, if_pos hall]
        have hset : (∃ b ∈ st.accessories ++ [newAcc d (env.uuidGen d.uniqueId) x y],
              b.uuid = a.uuid ∧ b.context.restartsSinceSeen = 0) ↔
            (env.uuidGen d.uniqueId = a.uuid ∨
              ∃ b ∈ st.accessories, b.uuid = a.uuid ∧ b.context.restartsSinceSeen = 0) := by
          constructor
          · rintro ⟨b, hb, hbv, hb0⟩
            rcases List.mem_append.mp hb with hbs | hbn
            · exact Or.inr ⟨b, hbs, hbv, hb0⟩
            · rcases List.mem_singleton.mp hbn with rfl
              exact Or.inl (by simpa using hbv)
          · rintro (hv | ⟨b, hb, hbv, hb0⟩)
            · exact ⟨newAcc d (env.uuidGen d.uniqueId) x y,
                List.mem_append.mpr (Or.inr (List.mem_singleton.mpr rfl)),
                by simpa using hv, rfl⟩
            · exact ⟨b, List.mem_append.mpr (Or.inl hb), hbv, hb0⟩
        rw [haccs, hset] at hiff
        rw [hiff]
        constructor
        · rintro (⟨d2, hd2, hk⟩ | (hv | hb))
          · exact Or.inl ⟨d2, List.mem_cons_of_mem d hd2, hk⟩
          · exact Or.inl ⟨d, List.mem_cons_self d rest, hv⟩
          · exact Or.inr hb
        · rintro (⟨d2, hd2, hk⟩ | hb)
          · rcases List.mem_cons.mp hd2 with rfl | hd2
            · exact Or.inr (Or.inl hk)
            · exact Or.inl ⟨d2, hd2, hk⟩
          · exact Or.inr (Or.inr hb)
      · have hreg : registerNew config st d (env.uuidGen d.uniqueId) x y = st := by
          simp [registerNew, hall]
        rw [hreg] at hiff ha
        rw [hiff]
        constructor
        · rintro (⟨d2, hd2, hk⟩ | hb)
          · exact Or.inl ⟨d2, List.mem_cons_of_mem d hd2, hk⟩
          · exact Or.inr hb
        · rintro (⟨d2, hd2, hk⟩ | hb)
          · rcases List.mem_cons.mp hd2 with rfl | hd2
            · rcases loop_provenance env config rest st a ha with ⟨c, hc, hcu⟩ | hd3
              · exact absurd (hcu.trans hk.symm) (hnotin c hc)
              · exact Or.inl hd3
            · exact Or.inl ⟨d2, hd2, hk⟩
          · exact Or.inr hb

theorem processExisting_unregistered_of_disallowed (config : Config) (st : RunState)
    (d : Device) (u : String) (ex : Accessory)
    (h : isAllowed config ex.context.device.uniqueId = false) :
    (processExisting config st d u ex).unregistered =
      st.unregistered ++ [matchedAcc d ex] := by
  simp only [processExisting, h]
  rfl

theorem sweepList_single (config : Config) (acc : Accessory) (dec : SweepDecision)
    (h : sweepDecision config acc = .ok dec) (st : RunState) :
    sweepList config st [acc] = .ok (applySweepDecision st acc dec) := by
  simp [sweepList, h]

/- Claim theorems. -/

/-- Claim C3: isAllowed implements exactly the reference allow-list
definition: absent configuration is always allowed; the blacklist clause
(mode contains "blacklist" and the uniqueId is listed) denies; otherwise the
whitelist clause (mode contains "whitelist" and the uniqueId is not listed)
denies; otherwise allowed. -/
theorem isAllowed_eq_reference (config : Config) (uniqueId : String) :
    isAllowed config uniqueId = referenceIsAllowed config uniqueId := by
  obtain ⟨dmOpt, prOpt⟩ := config
  cases dmOpt with
  | none => rfl
  | some dm =>
    obtain ⟨blOpt, modeOpt⟩ := dm
    cases blOpt with
    | none => cases modeOpt <;> rfl
    | some list =>
      cases modeOpt with
      | none => rfl
      | some mode =>
        unfold isAllowed referenceIsAllowed
        cases hA : list.contains uniqueId <;>
          cases hB : strContains mode ("blacklist") <;>
          cases hC : strContains mode ("whitelist") <;>
          simp [hA, hB, hC]

/-- Claim C2 (counterexample): with discovery always returning the empty list,
the scan phase of discoverDevices calls discover.scan 6 times (the initial
call plus 5 loop iterations), not 5 as claimed. -/
theorem scanPhase_attempts_counterexample :
    (scanPhase (fun _ => ([] : List Device))).2.2 = 6 ∧
    (scanPhase (fun _ => ([] : List Device))).2.2 ≠ 5 := by
  constructor
  · rfl
  · decide

/-- Claim C2 (amended): if every discovery scan returns the empty list, the
scan loop performs exactly 6 scan attempts (the initial scan plus 5 rescans,
the loop counter ending at 5) and hands the empty device list on without
raising an error. -/
theorem scanPhase_empty_six_attempts (scan : Nat → List Device)
    (h : ∀ n, scan n = []) : scanPhase scan = ([], 5, 6) := by
  simp [scanPhase, scanRetryAux, h]

/-- Witness for the amended claim C2 at the constantly-empty scan. -/
theorem scanPhase_empty_six_attempts_witness :
    scanPhase (fun _ => ([] : List Device)) = ([], 5, 6) :=
  scanPhase_empty_six_attempts (fun _ => []) (fun _ => rfl)

/-- Claim C5: an accessory whose lower-cased displayName contains the
substring delete is always pruned by the sweep: the decision is pruneDelete
for every configuration (even an absent pruning object, which is never read
on this path) and every counter value, and the sweep records exactly one
unregister effect for it and moves on to the rest of the list. -/
theorem sweepDecision_delete_always (config : Config) (acc : Accessory)
    (h : strContains (strToLower acc.context.displayName) ("delete") = true) :
    sweepDecision config acc = .ok .pruneDelete ∧
    ∀ (st : RunState) (rest : List Accessory),
      sweepList config st (acc :: rest) =
        sweepList config { st with unregistered := st.unregistered ++ [acc] } rest := by
  have hdec : sweepDecision config acc = .ok .pruneDelete := by
    simp [sweepDecision, h]
  refine ⟨hdec, ?_⟩
  intro st rest
  simp only [sweepList]
  rw [hdec]
  rfl

/-- Witness for claim C5 at a delete-marked accessory and a configuration
without any pruning object. -/
theorem sweepDecision_delete_always_witness :
    sweepDecision configEmpty accDeleteB = .ok .pruneDelete :=
  (sweepDecision_delete_always configEmpty accDeleteB (by decide)).1

/-- Claim C9 (counterexample): with no pruning configuration object and one
plain cached accessory, discoverDevices ends in an uncaught TypeError raised
by the pruning sweep, so not every input completes without an uncaught
exception. -/
theorem discoverDevices_pruning_typeerror :
    discoverDevices envTotal configEmpty (fun _ => []) [accPlainB] =
      .error ("TypeError: cannot read pruning of undefined") := by rfl

/-- Claim C9 (amended): discoverDevices completes without an uncaught
exception whenever the pruning configuration object is present (device-level
errors are caught by the run-level catch, and the sweep then never throws),
and an absent allow-list configuration makes isAllowed return true for every
uniqueId (fail-open). -/
theorem discoverDevices_total_of_pruning (env : Env) (config : Config)
    (scan : Nat → List Device) (cache : List Accessory) (pr : Pruning)
    (hpr : config.pruning = some pr) :
    (∃ st, discoverDevices env config scan cache = .ok st) ∧
    (config.deviceManagement = none → ∀ uid, isAllowed config uid = true) := by
  constructor
  · obtain ⟨st2, h2, _⟩ := sweepList_ok_of_pruning config pr hpr
      (reconcileLoop env config (initState cache) (scanPhase scan).1).accessories
      (reconcileLoop env config (initState cache) (scanPhase scan).1)
    exact ⟨st2, h2⟩
  · intro hdm uid
    simp [isAllowed, hdm]

/-- Witness for the amended claim C9 at a concrete total environment,
present pruning object and one cached accessory. -/
theorem discoverDevices_total_of_pruning_witness :
    (∃ st, discoverDevices envTotal configPlain (fun _ => [deviceA]) [accPlainB] = .ok st) ∧
    (configPlain.deviceManagement = none → ∀ uid, isAllowed configPlain uid = true) :=
  discoverDevices_total_of_pruning envTotal configPlain (fun _ => [deviceA]) [accPlainB]
    pruningOff rfl

/-- Claim C1 (behavior of the code at the failing input): with two new
devices where the state query of the first throws, the error is caught at the
loop boundary (loopError records it), and the second device is never
processed: no accessory is created and nothing is registered, although
processing the second device alone would have registered it. -/
theorem discoverDevices_abort_on_error :
    (discoverDevices envAbort configPlain (fun _ => [deviceA, deviceB]) [] =
      .ok { accessories := [], registeredDevices := 0, newDevices := 0, unseenDevices := 0,
            registered := [], updated := [], unregistered := [], driftWarnings := [],
            loopError := some ("ETIMEDOUT") }) ∧
    (∃ st, processDevice envAbort configPlain (initState []) deviceB = .ok st ∧
      st.newDevices = 1) := by
  constructor
  · rfl
  · exact ⟨_, rfl, rfl⟩

/-- Claim C6: a discovered device matched by uuid to a cached accessory has
the accessory cachedIPAddress overwritten with the discovered address when
they differ, recording a warning carrying the old and the new value, and the
warning list left unchanged when they are equal; the accessory list keeps its
length and the registry sees no new registration, so no duplicate accessory
is created for that identity. -/
theorem processDevice_matched_drift (env : Env) (config : Config) (st : RunState)
    (d : Device) (existing : Accessory)
    (hfind : st.accessories.find? (fun a => a.uuid == env.uuidGen d.uniqueId) = some existing) :
    ∃ st2, processDevice env config st d = .ok st2 ∧
      st2.accessories.length = st.accessories.length ∧
      st2.registered = st.registered ∧
      (∃ a2, st2.accessories.find? (fun a => a.uuid == env.uuidGen d.uniqueId) = some a2 ∧
        a2.context.cachedIPAddress = d.ipAddress ∧
        a2.uuid = existing.uuid) ∧
      (existing.context.cachedIPAddress = d.ipAddress →
        st2.driftWarnings = st.driftWarnings) ∧
      (existing.context.cachedIPAddress ≠ d.ipAddress →
        st2.driftWarnings = st.driftWarnings ++
          [(existing.context.displayName, existing.context.cachedIPAddress, d.ipAddress)]) := by
  have hdev : processDevice env config st d =
      .ok (processExisting config st d (env.uuidGen d.uniqueId) existing) := by
    simp only [processDevice]
    rw [hfind]
  refine ⟨_, hdev, ?_, processExisting_registered _ _ _ _ _, ?_, ?_, ?_⟩
  · rw [processExisting_accessories, replaceFirst_length]
  · refine ⟨matchedAcc d existing, ?_, matchedAcc_ip d existing, matchedAcc_uuid d existing⟩
    rw [processExisting_accessories]
    apply find?_replaceFirst_self _ _ _ _ hfind
    have hex : existing.uuid = env.uuidGen d.uniqueId := by simpa using List.find?_some hfind
    simp [hex]
  · intro h
    rw [processExisting_driftWarnings, if_pos h]
  · intro h
    rw [processExisting_driftWarnings, if_neg h]

/-- Claim C4 (counterexample): a cached accessory with no delete mark in its
name, counter 1 and both retention flags off is nevertheless unregistered by
the sweep because its device uniqueId is blacklisted, so the claimed
characterization (unregistered iff pruneAllAccessoriesNextRestart, or
pruneMissingCachedAccessories with the counter at the threshold) is false at
this input. -/
theorem sweep_nonDelete_counterexample :
    (∃ st2, sweepList configBlacklistB (initState [accUnseenB]) [accUnseenB] = .ok st2 ∧
      st2.unregistered = [accUnseenB]) ∧
    configBlacklistB.pruning = some pruningOff ∧
    pruningOff.pruneAllAccessoriesNextRestart = false ∧
    pruningOff.pruneMissingCachedAccessories = false ∧
    strContains (strToLower accUnseenB.context.displayName) ("delete") = false := by
  exact ⟨⟨_, rfl, rfl⟩, rfl, rfl, rfl, by decide⟩

/-- Claim C4 (amended): in the pruning sweep, an accessory whose displayName
does not contain delete is unregistered iff pruneAllAccessoriesNextRestart is
true, or pruneMissingCachedAccessories is true and the counter has reached
restartsBeforeMissingAccessoriesPruned, or — failing those — the counter is
positive and the accessory's device uniqueId is disallowed by the allow-list;
it is kept and updated iff it is not unregistered and its counter is positive
(so an allowed accessory at threshold minus one is retained and updated, and
one at the threshold with pruneMissingCachedAccessories true is
unregistered). -/
theorem sweep_nonDelete_iff (config : Config) (pr : Pruning) (acc : Accessory)
    (hpr : config.pruning = some pr)
    (hname : strContains (strToLower acc.context.displayName) ("delete") = false) :
    ∃ st2, sweepList config (initState [acc]) [acc] = .ok st2 ∧
      (st2.unregistered = [acc] ↔
        (pr.pruneAllAccessoriesNextRestart = true ∨
         (pr.pruneMissingCachedAccessories = true ∧
           pr.restartsBeforeMissingAccessoriesPruned ≤ acc.context.restartsSinceSeen) ∨
         (0 < acc.context.restartsSinceSeen ∧
           isAllowed config acc.context.device.uniqueId = false))) ∧
      (st2.updated = [acc] ↔
        (¬ (pr.pruneAllAccessoriesNextRestart = true ∨
            (pr.pruneMissingCachedAccessories = true ∧
              pr.restartsBeforeMissingAccessoriesPruned ≤ acc.context.restartsSinceSeen) ∨
            (0 < acc.context.restartsSinceSeen ∧
              isAllowed config acc.context.device.uniqueId = false)) ∧
          0 < acc.context.restartsSinceSeen)) := by
  by_cases hth : pr.restartsBeforeMissingAccessoriesPruned ≤ acc.context.restartsSinceSeen <;>
    by_cases hrss : 0 < acc.context.restartsSinceSeen <;>
    cases hm : pr.pruneMissingCachedAccessories <;>
    cases ha : pr.pruneAllAccessoriesNextRestart <;>
    cases hal : isAllowed config acc.context.device.uniqueId <;>
    · have hdec := sweepDecision_ok_of_pruning config acc pr hpr
      obtain ⟨dec, hdec⟩ := hdec
      refine ⟨_, sweepList_single config acc dec hdec (initState [acc]), ?_, ?_⟩ <;>
        · simp only [sweepDecision, sweepTail, hname, hpr, hth, hrss, hm, ha, hal,
            Bool.false_eq_true, if_false, if_true, decide_eq_true_eq] at hdec
          simp only [Bool.true_or, Bool.false_or,
            Bool.or_true, Bool.or_false, Bool.not_true, Bool.not_false,
            if_true, if_false, ite_true, ite_false, decide_eq_true_eq] at hdec
          cases hdec
          simp [applySweepDecision, initState, hm, ha, hal, hth, hrss]

/-- Witness for the amended claim C4 at a blacklisted unseen accessory with
both retention flags off. -/
theorem sweep_nonDelete_iff_witness :
    ∃ st2, sweepList configBlacklistB (initState [accUnseenB]) [accUnseenB] = .ok st2 ∧
      (st2.unregistered = [accUnseenB] ↔
        (pruningOff.pruneAllAccessoriesNextRestart = true ∨
         (pruningOff.pruneMissingCachedAccessories = true ∧
           pruningOff.restartsBeforeMissingAccessoriesPruned ≤
             accUnseenB.context.restartsSinceSeen) ∨
         (0 < accUnseenB.context.restartsSinceSeen ∧
           isAllowed configBlacklistB accUnseenB.context.device.uniqueId = false))) ∧
      (st2.updated = [accUnseenB] ↔
        (¬ (pruningOff.pruneAllAccessoriesNextRestart = true ∨
            (pruningOff.pruneMissingCachedAccessories = true ∧
              pruningOff.restartsBeforeMissingAccessoriesPruned ≤
                accUnseenB.context.restartsSinceSeen) ∨
            (0 < accUnseenB.context.restartsSinceSeen ∧
              isAllowed configBlacklistB accUnseenB.context.device.uniqueId = false)) ∧
          0 < accUnseenB.context.restartsSinceSeen)) :=
  sweep_nonDelete_iff configBlacklistB pruningOff accUnseenB rfl (by decide)

/-- Witness for claim C6 at a cached accessory matched by the discovered
device with an equal address. -/
theorem processDevice_matched_drift_witness :
    ∃ st2, processDevice envTotal configPlain (initState [accPlainB]) deviceB = .ok st2 ∧
      st2.accessories.length = (initState [accPlainB]).accessories.length ∧
      st2.registered = (initState [accPlainB]).registered ∧
      (∃ a2, st2.accessories.find?
          (fun a => a.uuid == envTotal.uuidGen deviceB.uniqueId) = some a2 ∧
        a2.context.cachedIPAddress = deviceB.ipAddress ∧
        a2.uuid = accPlainB.uuid) ∧
      (accPlainB.context.cachedIPAddress = deviceB.ipAddress →
        st2.driftWarnings = (initState [accPlainB]).driftWarnings) ∧
      (accPlainB.context.cachedIPAddress ≠ deviceB.ipAddress →
        st2.driftWarnings = (initState [accPlainB]).driftWarnings ++
          [(accPlainB.context.displayName, accPlainB.context.cachedIPAddress,
            deviceB.ipAddress)]) :=
  processDevice_matched_drift envTotal configPlain (initState [accPlainB]) deviceB accPlainB
    (by rfl)

/-- Claim C7: every accessory restored from cache goes through
configureAccessory, which increments restartsSinceSeen by exactly 1 before
reconciliation; and after a failure-free run (pruning object present,
collaborator queries succeeding, restored uuids pairwise distinct), an
accessory of the final in-memory list carries restartsSinceSeen = 0 exactly
when some discovered device of this run carries its uuid — new accessories
start at 0, matched cached accessories are reset to 0, unmatched cached
accessories keep their incremented positive counter. -/
theorem runPlatform_seen_iff (env : Env) (config : Config) (pr : Pruning)
    (scan : Nat → List Device) (persisted : List Accessory)
    (hdist : UuidsDistinct persisted)
    (hek : ∀ d, ∃ x, env.createAccessory d = .ok x)
    (hes : ∀ d, ∃ y, env.getState d = .ok y)
    (hpr : config.pruning = some pr) :
    restoreCache persisted = persisted.map bumpRestarts ∧
    ∃ st, runPlatform env config scan persisted = .ok st ∧
      ∀ a ∈ st.accessories,
        (a.context.restartsSinceSeen = 0 ↔
          ∃ d ∈ (scanPhase scan).1, env.uuidGen d.uniqueId = a.uuid) := by
  refine ⟨restoreCache_eq_map persisted, ?_⟩
  have hdist2 : UuidsDistinct (restoreCache persisted) := by
    rw [restoreCache_eq_map]
    have hmapeq : uuids (persisted.map bumpRestarts) = uuids persisted := by
      simp [uuids, List.map_map, Function.comp]
    rw [UuidsDistinct, hmapeq]
    exact hdist
  obtain ⟨-, liff⟩ := loop_rss_iff env config hek hes (scanPhase scan).1
    (initState (restoreCache persisted)) hdist2
  obtain ⟨st2, hsw, hswacc⟩ := sweepList_ok_of_pruning config pr hpr
    (reconcileLoop env config (initState (restoreCache persisted)) (scanPhase scan).1).accessories
    (reconcileLoop env config (initState (restoreCache persisted)) (scanPhase scan).1)
  refine ⟨st2, hsw, ?_⟩
  intro a ha
  rw [hswacc] at ha
  have hiff := liff a ha
  rw [hiff]
  constructor
  · rintro (h | ⟨b, hb, -, hb0⟩)
    · exact h
    · exfalso
      have hb2 : b ∈ restoreCache persisted := hb
      rw [restoreCache_eq_map] at hb2
      rcases List.mem_map.mp hb2 with ⟨c, -, rfl⟩
      rw [bumpRestarts_rss] at hb0
      exact Nat.succ_ne_zero _ hb0
  · intro h
    exact Or.inl h

/-- Witness for claim C7 at one restored accessory matched by the one
discovered device. -/
theorem runPlatform_seen_iff_witness :
    restoreCache [accPlainB] = [accPlainB].map bumpRestarts ∧
    ∃ st, runPlatform envTotal configPlain (fun _ => [deviceB]) [accPlainB] = .ok st ∧
      ∀ a ∈ st.accessories,
        (a.context.restartsSinceSeen = 0 ↔
          ∃ d ∈ (scanPhase (fun _ => [deviceB])).1, envTotal.uuidGen d.uniqueId = a.uuid) :=
  runPlatform_seen_iff envTotal configPlain pruningOff (fun _ => [deviceB]) [accPlainB]
    (by simp [UuidsDistinct, uuids])
    (fun d => ⟨d.uniqueId, rfl⟩)
    (fun d => ⟨("state-buffer"), rfl⟩)
    rfl

/-- Claim C8: running the reconciliation twice with the identical
discovered-device set, starting from a cache already converged to it (every
discovered device finds an accessory under its uuid carrying the discovered
address), produces zero new registrations on the second run and leaves the
whole accessory list — hence every cachedIPAddress and end-of-run
restartsSinceSeen — exactly as after the first run. -/
theorem reconcile_idempotent (env : Env) (config : Config) (devices : List Device)
    (cache : List Accessory) (hconv : Converged env cache devices) :
    (reconcileLoop env config (initState
        (reconcileLoop env config (initState cache) devices).accessories) devices).registered
      = [] ∧
    (reconcileLoop env config (initState
        (reconcileLoop env config (initState cache) devices).accessories) devices).newDevices
      = 0 ∧
    (reconcileLoop env config (initState
        (reconcileLoop env config (initState cache) devices).accessories) devices).accessories
      = (reconcileLoop env config (initState cache) devices).accessories := by
  obtain ⟨h1reg, h1new, h1find⟩ := loop_converged_run env config devices (initState cache) hconv
  have h2 : ∀ d ∈ devices, ∃ a,
      (initState (reconcileLoop env config (initState cache) devices).accessories).accessories.find?
        (fun x => x.uuid == env.uuidGen d.uniqueId) = some a ∧
      a.context.cachedIPAddress = d.ipAddress ∧ a.context.restartsSinceSeen = 0 := by
    intro d hd
    obtain ⟨a0, hfind0, hip0⟩ := hconv d hd
    obtain ⟨a2, hf2, -, hip2, -, hz2⟩ := h1find (env.uuidGen d.uniqueId) a0 hfind0
    exact ⟨a2, hf2, hip2.trans hip0, hz2 ⟨d, hd, rfl⟩⟩
  obtain ⟨h3a, h3r, h3n⟩ := loop_zero_fixed env config devices
    (initState (reconcileLoop env config (initState cache) devices).accessories) h2
  exact ⟨h3r, h3n, h3a⟩

/-- Witness for claim C8 at a one-device discovery matching the one cached
accessory with an equal address. -/
theorem reconcile_idempotent_witness :
    (reconcileLoop envTotal configPlain (initState
        (reconcileLoop envTotal configPlain (initState [accPlainB]) [deviceB]).accessories)
      [deviceB]).registered = [] ∧
    (reconcileLoop envTotal configPlain (initState
        (reconcileLoop envTotal configPlain (initState [accPlainB]) [deviceB]).accessories)
      [deviceB]).newDevices = 0 ∧
    (reconcileLoop envTotal configPlain (initState
        (reconcileLoop envTotal configPlain (initState [accPlainB]) [deviceB]).accessories)
      [deviceB]).accessories =
      (reconcileLoop envTotal configPlain (initState [accPlainB]) [deviceB]).accessories :=
  reconcile_idempotent envTotal configPlain [deviceB] [accPlainB]
    (by
      intro d hd
      rw [List.mem_singleton] at hd
      subst hd
      exact ⟨accPlainB, rfl, rfl⟩)

/-- Claim C10: unregistering never removes an accessory from the in-memory
list: a cached accessory matched this run but disallowed by the allow-list is
unregistered during reconciliation yet stays in this.accessories with its
counter reset to 0 and its cachedIPAddress carrying the discovered address,
and the pruning sweep evaluates it again and — its displayName containing
delete — unregisters it a second time. -/
theorem unregistered_stays_in_list (env : Env) (config : Config) (d : Device) (a : Accessory)
    (hmatch : env.uuidGen d.uniqueId = a.uuid)
    (hdis : isAllowed config a.context.device.uniqueId = false)
    (hdel : strContains (strToLower a.context.displayName) ("delete") = true) :
    ∃ st a2, runPlatform env config (fun _ => [d]) [a] = .ok st ∧
      st.accessories = [a2] ∧
      a2.context.restartsSinceSeen = 0 ∧
      a2.context.cachedIPAddress = d.ipAddress ∧
      a2.context.displayName = a.context.displayName ∧
      st.unregistered = [a2, a2] := by
  have hkey : (a.uuid == env.uuidGen d.uniqueId) = true := by
    simp [hmatch]
  have hfind : (initState [bumpRestarts a]).accessories.find?
      (fun x => x.uuid == env.uuidGen d.uniqueId) = some (bumpRestarts a) := by
    simp [initState, List.find?, hkey]
  have hrc : restoreCache [a] = [bumpRestarts a] := by
    simp [restoreCache_eq_map]
  have hscan : (scanPhase (fun _ => [d])).1 = [d] := by
    simp [scanPhase, scanRetryAux]
  have hstep : processDevice env config (initState [bumpRestarts a]) d =
      .ok (processExisting config (initState [bumpRestarts a]) d
        (env.uuidGen d.uniqueId) (bumpRestarts a)) := by
    simp only [processDevice]
    rw [hfind]
  set a2 := matchedAcc d (bumpRestarts a) with ha2
  set st1 := processExisting config (initState [bumpRestarts a]) d
    (env.uuidGen d.uniqueId) (bumpRestarts a) with hst1
  have hloop : reconcileLoop env config (initState [bumpRestarts a]) [d] = st1 := by
    rw [reconcileLoop, hstep]
    rfl
  have hacc1 : st1.accessories = [a2] := by
    rw [hst1, processExisting_accessories]
    simp [initState, replaceFirst, hkey]
  have hdis2 : isAllowed config (bumpRestarts a).context.device.uniqueId = false := by
    rw [bumpRestarts_device]
    exact hdis
  have hunreg1 : st1.unregistered = [a2] := by
    rw [hst1, processExisting_unregistered_of_disallowed config _ d _ _ hdis2]
    simp [initState]
  have hname2 : strContains (strToLower a2.context.displayName) ("delete") = true := by
    rw [ha2, matchedAcc_name, bumpRestarts_name]
    exact hdel
  have hdec : sweepDecision config a2 = .ok .pruneDelete := by
    simp [sweepDecision, hname2]
  have hrun : runPlatform env config (fun _ => [d]) [a] = sweepList config st1 st1.accessories := by
    simp only [runPlatform, discoverDevices, hrc, hscan, hloop]
  refine ⟨applySweepDecision st1 a2 .pruneDelete, a2, ?_, ?_, ?_, ?_, ?_, ?_⟩
  · rw [hrun, hacc1]
    exact sweepList_single config a2 .pruneDelete hdec st1
  · rw [applySweepDecision_accessories, hacc1]
  · rw [ha2, matchedAcc_rss]
  · rw [ha2, matchedAcc_ip]
  · rw [ha2, matchedAcc_name, bumpRestarts_name]
  · show st1.unregistered ++ [a2] = [a2, a2]
    rw [hunreg1]
    rfl

/-- Witness for claim C10 at a delete-marked blacklisted accessory matched by
device B (with an address drift from 10.0.0.9 to 10.0.0.2). -/
theorem unregistered_stays_in_list_witness :
    ∃ st a2, runPlatform envTotal configBlacklistB (fun _ => [deviceB]) [accDeleteB] = .ok st ∧
      st.accessories = [a2] ∧
      a2.context.restartsSinceSeen = 0 ∧
      a2.context.cachedIPAddress = deviceB.ipAddress ∧
      a2.context.displayName = accDeleteB.context.displayName ∧
      st.unregistered = [a2, a2] :=
  unregistered_stays_in_list envTotal configBlacklistB deviceB accDeleteB rfl (by decide)
    (by decide)

end MagicHome
